import Mathlib

/-!
# Camera capture driver: edge-to-trigger resolver and capture control

A shallow embedding of `src/drivers/camera_capture/camera_capture.cpp`.

The driver object is a record of its member variables; every member function
becomes a pure function from the record (and the results returned by the
operating system calls it makes) to the updated record and what it handed to
the outside world (the published `camera_trigger` message, the capture
configuration given to the FMU device).

Machine integers are natural numbers; unsigned subtraction and increment wrap
explicitly (`sub64`, `inc32`).
-/

namespace camera_capture

/-! ## Machine arithmetic -/

/-- Subtraction of two `uint64_t` values (`hrt_abstime`), wrapping modulo `2^64`. -/
def sub64 (a b : Nat) : Nat := (a + (2 ^ 64 - b % 2 ^ 64)) % 2 ^ 64

/-- Post-increment target of a `uint32_t`: the value after `n++`, wrapping modulo `2^32`. -/
def inc32 (n : Nat) : Nat := (n + 1) % 2 ^ 32

/-! ## Data model -/

/-- The trigger buffer `_trig_s`: the raw edge handed over by the capture interrupt. -/
structure trig_s where
  chan_index : Nat
  edge_time : Nat
  edge_state : Nat
  overflow : Nat
  deriving DecidableEq, Repr

/-- The fields of the `camera_trigger` message that `publish_trigger` writes. -/
structure camera_trigger_s where
  timestamp : Nat
  seq : Nat
  feedback : Bool
  deriving DecidableEq, Repr

/-- Modelled from the spec: the member variables of `CameraCapture`, whose declarations
(`camera_capture.hpp`) are not part of the sources at hand. Times are `hrt_abstime`
(unsigned 64-bit microseconds), `capture_seq` and `capture_overflows` are 32-bit unsigned
(they are printed with `%u`), the two parameters are integers. `strobe_delay_us` stands for
the value of the expression `uint64_t(1000 * _strobe_delay)`, the configured strobe delay
in microseconds, which is the only way the source uses `_strobe_delay`. -/
structure CameraCapture where
  trigger : trig_s
  capture_enabled : Bool
  gpio_capture : Bool
  strobe_delay_us : Nat
  camera_capture_mode : Int
  camera_capture_edge : Int
  capture_seq : Nat
  last_trig_begin_time : Nat
  last_exposure_time : Nat
  last_trig_time : Nat
  capture_overflows : Nat
  deriving DecidableEq, Repr

/-- Modelled from the spec: the edge selection of the input capture driver
(`Rising`, `Falling`, `Both` are named by `set_capture_control`; the enumeration itself is
declared in a header that is not part of the sources at hand). -/
inductive input_capture_edge where
  | Disabled
  | Rising
  | Falling
  | Both
  deriving DecidableEq, Repr

/-- The callback pointer stored in a capture configuration. -/
inductive capture_callback_ptr where
  | nullptr
  | capture_trampoline
  deriving DecidableEq, Repr

/-- The context pointer stored in a capture configuration. -/
inductive capture_context_ptr where
  | nullptr
  | this
  deriving DecidableEq, Repr

/-- The configuration `input_capture_config_t` that `set_capture_control` fills in. -/
structure input_capture_config_t where
  channel : Nat
  filter : Nat
  edge : input_capture_edge
  callback : capture_callback_ptr
  context : capture_context_ptr
  deriving DecidableEq, Repr

/-- The results of the system calls made by `set_capture_control`: the descriptor returned
by `open`, and the return codes of the three `ioctl` requests. -/
structure fmu_calls where
  open_fd : Int
  get_count : Int
  set_mode : Int
  set_callback : Int
  deriving DecidableEq, Repr

/-! ## Operations -/

/-- The member function `CameraCapture::capture_callback`: store the four raw values in `_trigger`
(the deferred call of `publish_trigger` is sequenced by the caller, see `on_edge`). -/
def CameraCapture.capture_callback (c : CameraCapture)
    (chan_index edge_time edge_state overflow : Nat) : CameraCapture :=
  { c with trigger :=
      { chan_index := chan_index, edge_time := edge_time,
        edge_state := edge_state, overflow := overflow } }

/-- The local variables of `publish_trigger` after its mode dispatch. -/
structure resolved where
  dev : CameraCapture
  trigger : camera_trigger_s
  publish : Bool
  deriving DecidableEq, Repr

/-- The mode dispatch of `CameraCapture::publish_trigger` (the `if / else if / else`
chain), starting from `publish = false` and a zero-initialised message. -/
def CameraCapture.resolve (c : CameraCapture) : resolved :=
  let trigger0 : camera_trigger_s := { timestamp := 0, seq := 0, feedback := false }
  if c.camera_capture_mode = 0 ∨ c.gpio_capture = true then
    let ts := sub64 c.trigger.edge_time c.strobe_delay_us
    { dev := { c with capture_seq := inc32 c.capture_seq, last_trig_time := ts },
      trigger := { trigger0 with timestamp := ts, seq := c.capture_seq },
      publish := true }
  else if c.camera_capture_mode = 1 then
    if c.trigger.edge_state = 1 then
      { dev := { c with last_trig_begin_time := sub64 c.trigger.edge_time c.strobe_delay_us },
        trigger := trigger0, publish := false }
    else if c.trigger.edge_state = 0 ∧ c.last_trig_begin_time > 0 then
      let ts := sub64 c.trigger.edge_time
        (sub64 c.trigger.edge_time c.last_trig_begin_time / 2)
      { dev := { c with
                  capture_seq := inc32 (inc32 c.capture_seq),
                  last_exposure_time := sub64 c.trigger.edge_time c.last_trig_begin_time,
                  last_trig_time := ts },
        trigger := { trigger0 with timestamp := ts, seq := c.capture_seq },
        publish := true }
    else
      { dev := c, trigger := trigger0, publish := false }
  else
    if c.trigger.edge_state = 0 then
      { dev := { c with last_trig_begin_time := sub64 c.trigger.edge_time c.strobe_delay_us },
        trigger := trigger0, publish := false }
    else if c.trigger.edge_state = 1 ∧ c.last_trig_begin_time > 0 then
      let ts := sub64 c.trigger.edge_time
        (sub64 c.trigger.edge_time c.last_trig_begin_time / 2)
      { dev := { c with
                  capture_seq := inc32 c.capture_seq,
                  last_exposure_time := sub64 c.trigger.edge_time c.last_trig_begin_time,
                  last_trig_time := ts },
        trigger := { trigger0 with timestamp := ts, seq := c.capture_seq },
        publish := true }
    else
      { dev := c, trigger := trigger0, publish := false }

/-- The member function `CameraCapture::publish_trigger`: the mode dispatch, then `feedback = true`, the overflow
count is recorded, and the message is published when `publish` is set. The result is the
updated driver and the published message, if any. -/
def CameraCapture.publish_trigger (c : CameraCapture) :
    CameraCapture × Option camera_trigger_s :=
  let r := c.resolve
  let trigger : camera_trigger_s := { r.trigger with feedback := true }
  let d : CameraCapture := { r.dev with capture_overflows := r.dev.trigger.overflow }
  if r.publish = false then (d, none) else (d, some trigger)

/-- The member function `CameraCapture::reset_statistics`: the sequence counter is zeroed
only on request, the other four statistics always. -/
def CameraCapture.reset_statistics (c : CameraCapture) (reset_seq : Bool) : CameraCapture :=
  let c1 := if reset_seq = true then { c with capture_seq := 0 } else c
  { c1 with
      last_trig_begin_time := 0,
      last_exposure_time := 0,
      last_trig_time := 0,
      capture_overflows := 0 }

/-- The capture configuration built by `set_capture_control` before the callback is
installed: channel 5, no filter, the edge selected by the capture mode, and the callback
and context set only when enabling. -/
def CameraCapture.capture_conf (c : CameraCapture) (enabled : Bool) : input_capture_config_t :=
  let conf : input_capture_config_t :=
    { channel := 5, filter := 0,
      edge := if c.camera_capture_mode = 0 then
                (if c.camera_capture_edge ≠ 0 then input_capture_edge.Rising
                 else input_capture_edge.Falling)
              else input_capture_edge.Both,
      callback := capture_callback_ptr.nullptr,
      context := capture_context_ptr.nullptr }
  if enabled = true then
    { conf with callback := capture_callback_ptr.capture_trampoline,
                context := capture_context_ptr.this }
  else conf

/-- The tail of `set_capture_control` from the `INPUT_CAP_SET_CALLBACK` request on: on
success the flags are set and the statistics reset, on failure `_capture_enabled` is
cleared and the reset is skipped (`goto err_out`). The second component is the
configuration handed to the device. -/
def CameraCapture.install_callback (c : CameraCapture) (calls : fmu_calls) (enabled : Bool) :
    CameraCapture × Option input_capture_config_t :=
  if calls.set_callback = 0 then
    (({ c with capture_enabled := enabled, gpio_capture := false }).reset_statistics false,
      some (c.capture_conf enabled))
  else
    ({ c with capture_enabled := false }, some (c.capture_conf enabled))

/-- The member function `CameraCapture::set_capture_control`. `av_x_v1` is the build switch
`CONFIG_ARCH_BOARD_AV_X_V1`; `calls` holds what `open` and the `ioctl` requests return.
The second component is the configuration passed with `INPUT_CAP_SET_CALLBACK`, when that
request is reached. -/
def CameraCapture.set_capture_control (c : CameraCapture) (av_x_v1 : Bool) (calls : fmu_calls)
    (enabled : Bool) : CameraCapture × Option input_capture_config_t :=
  if av_x_v1 = true then
    (({ c with capture_enabled := enabled, gpio_capture := true }).reset_statistics false, none)
  else if calls.open_fd < 0 then
    (c, none)
  else if enabled = true then
    if calls.get_count ≠ 0 then
      if calls.set_mode = 0 then c.install_callback calls enabled
      else (c, none)
    else c.install_callback calls enabled
  else c.install_callback calls enabled

/-- One hardware edge seen through to the end: the capture callback stores the raw edge and
the deferred worker runs `publish_trigger` on it. -/
def CameraCapture.on_edge (c : CameraCapture) (e : trig_s) :
    CameraCapture × Option camera_trigger_s :=
  (c.capture_callback e.chan_index e.edge_time e.edge_state e.overflow).publish_trigger

/-- A sequence of hardware edges, each seen through to the end before the next arrives;
the result is the final driver and the messages published, in order. -/
def CameraCapture.run_edges : CameraCapture → List trig_s → CameraCapture × List camera_trigger_s
  | c, [] => (c, [])
  | c, e :: es =>
    let r := c.on_edge e
    let rest := CameraCapture.run_edges r.1 es
    (rest.1, r.2.toList ++ rest.2)

/-- A rising edge (`edge_state == 1`) on channel 5 at time `t`. -/
def rising (t : Nat) : trig_s := { chan_index := 5, edge_time := t, edge_state := 1, overflow := 0 }

/-- A falling edge (`edge_state == 0`) on channel 5 at time `t`. -/
def falling (t : Nat) : trig_s := { chan_index := 5, edge_time := t, edge_state := 0, overflow := 0 }

/-- A driver as constructed, with the given capture mode and strobe delay: capture disabled,
no GPIO capture, all statistics zero. -/
def fresh (mode : Int) (delay_us : Nat) : CameraCapture :=
  { trigger := { chan_index := 0, edge_time := 0, edge_state := 0, overflow := 0 },
    capture_enabled := false, gpio_capture := false,
    strobe_delay_us := delay_us, camera_capture_mode := mode, camera_capture_edge := 0,
    capture_seq := 0, last_trig_begin_time := 0, last_exposure_time := 0,
    last_trig_time := 0, capture_overflows := 0 }

/-- A driver in capture mode 0 with a strobe delay of 1000 microseconds, sequence counter 7
and a raw edge at 5000 in the holder. -/
def immediate_sample : CameraCapture :=
  { fresh 0 1000 with
      trigger := { chan_index := 5, edge_time := 5000, edge_state := 1, overflow := 3 },
      capture_seq := 7 }

/-- A driver in capture mode 1 with sequence counter 7, a window start pending at 400 and
statistics left over from earlier triggers. -/
def mode1_sample : CameraCapture :=
  { fresh 1 0 with
      capture_seq := 7, last_trig_begin_time := 400, last_exposure_time := 30,
      last_trig_time := 500, capture_overflows := 2 }

/-- The edge state that opens an exposure window: `1` (rising) in capture mode 1, `0`
(falling) in the remaining mid-exposure branch of `publish_trigger`. -/
def opening_state (mode : Int) : Nat := if mode = 1 then 1 else 0

/-- The edge state that closes an exposure window: `0` (falling) in capture mode 1, `1`
(rising) in the remaining mid-exposure branch of `publish_trigger`. -/
def closing_state (mode : Int) : Nat := if mode = 1 then 0 else 1

/-- Swap the polarity of an edge state: rising (`1`) and falling (`0`) are exchanged, any
other value of the 32-bit field is kept. -/
def flip_state (e : Nat) : Nat := if e = 1 then 0 else if e = 0 then 1 else e

/-- The raw edge with its polarity swapped. -/
def flip_edge (e : trig_s) : trig_s := { e with edge_state := flip_state e.edge_state }

/-- The call `set_capture_control(enabled)` runs to its end (the callback request returned
0 and the statistics were reset): the device was opened, the switch to a capture mode, when
one was needed, went through, and the callback request was accepted. -/
def control_succeeds (calls : fmu_calls) (enabled : Bool) : Prop :=
  0 ≤ calls.open_fd
  ∧ (enabled = true → calls.get_count ≠ 0 → calls.set_mode = 0)
  ∧ calls.set_callback = 0

instance (calls : fmu_calls) (enabled : Bool) : Decidable (control_succeeds calls enabled) := by
  unfold control_succeeds
  infer_instance

/-- The call `set_capture_control(enabled)` leaves through an error exit: the device could
not be opened. -/
def open_fails (calls : fmu_calls) : Prop := calls.open_fd < 0

/-- The call `set_capture_control(enabled)` leaves through an error exit: the device was
opened, it was not in a capture mode and the switch to one was refused. -/
def mode_fails (calls : fmu_calls) (enabled : Bool) : Prop :=
  0 ≤ calls.open_fd ∧ enabled = true ∧ calls.get_count ≠ 0 ∧ calls.set_mode ≠ 0

/-- The call `set_capture_control(enabled)` leaves through an error exit: the callback
request was reached and refused. -/
def callback_fails (calls : fmu_calls) (enabled : Bool) : Prop :=
  0 ≤ calls.open_fd
  ∧ (enabled = true → calls.get_count ≠ 0 → calls.set_mode = 0)
  ∧ calls.set_callback ≠ 0

instance (calls : fmu_calls) : Decidable (open_fails calls) := by
  unfold open_fails
  infer_instance

instance (calls : fmu_calls) (enabled : Bool) : Decidable (mode_fails calls enabled) := by
  unfold mode_fails
  infer_instance

instance (calls : fmu_calls) (enabled : Bool) : Decidable (callback_fails calls enabled) := by
  unfold callback_fails
  infer_instance

/-- A driver in capture mode 0 whose capture is currently enabled. -/
def enabled_sample : CameraCapture := { fresh 0 0 with capture_enabled := true }

/-- The call `set_capture_control(enabled)` gets as far as the `INPUT_CAP_SET_CALLBACK`
request: the device was opened and the switch to a capture mode, when one was needed, went
through. -/
def reaches_callback (calls : fmu_calls) (enabled : Bool) : Prop :=
  0 ≤ calls.open_fd ∧ (enabled = true → calls.get_count ≠ 0 → calls.set_mode = 0)

instance (calls : fmu_calls) (enabled : Bool) : Decidable (reaches_callback calls enabled) := by
  unfold reaches_callback
  infer_instance

/-- A driver with GPIO capture (as set up on the AV-X board), configured for capture mode 1,
with a strobe delay of 1000 microseconds, sequence counter 7, a window start pending at
400 and a falling edge at 5000 in the holder. -/
def gpio_sample : CameraCapture :=
  { fresh 1 1000 with
      trigger := { chan_index := 0, edge_time := 5000, edge_state := 0, overflow := 0 },
      gpio_capture := true, capture_seq := 7, last_trig_begin_time := 400 }

/-! ## Arithmetic facts -/

theorem sub64_of_le {a b : Nat} (hb : b ≤ a) (ha : a < 2 ^ 64) : sub64 a b = a - b := by
  unfold sub64
  have hb2 : b % 2 ^ 64 = b := Nat.mod_eq_of_lt (lt_of_le_of_lt hb ha)
  rw [hb2]
  have h : a + (2 ^ 64 - b) = (a - b) + 2 ^ 64 := by omega
  rw [h, Nat.add_mod_right]
  exact Nat.mod_eq_of_lt (by omega)

theorem sub64_lt (a b : Nat) : sub64 a b < 2 ^ 64 := by
  unfold sub64
  exact Nat.mod_lt _ (by norm_num)

theorem sub64_self (a : Nat) : sub64 a a = 0 := by
  unfold sub64
  omega

/-! ## Sequence numbering -/

/-- C1, evaluated where it fails: in capture mode 1 (mid-exposure, active high), starting
right after `reset_statistics(true)`, two complete exposure windows publish two events
whose sequence numbers are 0 and 2, not 0 and 1, and leave the counter at 4. The same
windows with swapped polarity in mode 2 are numbered 0 and 1, as are two edges in mode 0. -/
theorem mode1_sequence_skips :
    ((((fresh 1 0).reset_statistics true).run_edges
        [rising 1000, falling 2000, rising 3000, falling 4000]).2.map camera_trigger_s.seq
      = [0, 2])
    ∧ (((fresh 1 0).reset_statistics true).run_edges
        [rising 1000, falling 2000, rising 3000, falling 4000]).1.capture_seq = 4
    ∧ ((((fresh 2 0).reset_statistics true).run_edges
        [falling 1000, rising 2000, falling 3000, rising 4000]).2.map camera_trigger_s.seq
      = [0, 1])
    ∧ ((((fresh 0 0).reset_statistics true).run_edges
        [rising 1000, rising 2000]).2.map camera_trigger_s.seq
      = [0, 1]) := by
  decide

/-! ## Immediate mode -/

/-- C2: in capture mode 0, whatever the rest of the driver state and whatever raw edge is in
the holder, `publish_trigger` publishes one message whose timestamp is the raw edge time
minus the strobe delay in microseconds (unsigned 64-bit subtraction) and whose sequence
number is the counter before the call; `last_trig_time` becomes that timestamp and the
counter is incremented (32-bit unsigned). When the delay does not exceed the edge time the
subtraction is the exact one, and below `2^32 - 1` the increment is exactly `+ 1`. -/
theorem publish_trigger_immediate (c : CameraCapture) (hmode : c.camera_capture_mode = 0) :
    c.publish_trigger.2
        = some { timestamp := sub64 c.trigger.edge_time c.strobe_delay_us,
                 seq := c.capture_seq, feedback := true }
    ∧ c.publish_trigger.1.last_trig_time = sub64 c.trigger.edge_time c.strobe_delay_us
    ∧ c.publish_trigger.1.capture_seq = inc32 c.capture_seq
    ∧ (c.strobe_delay_us ≤ c.trigger.edge_time → c.trigger.edge_time < 2 ^ 64 →
        sub64 c.trigger.edge_time c.strobe_delay_us
          = c.trigger.edge_time - c.strobe_delay_us)
    ∧ (c.capture_seq + 1 < 2 ^ 32 → inc32 c.capture_seq = c.capture_seq + 1) := by
  refine ⟨?_, ?_, ?_, ?_, ?_⟩
  · simp [CameraCapture.publish_trigger, CameraCapture.resolve, hmode]
  · simp [CameraCapture.publish_trigger, CameraCapture.resolve, hmode]
  · simp [CameraCapture.publish_trigger, CameraCapture.resolve, hmode]
  · intro h1 h2
    exact sub64_of_le h1 h2
  · intro h
    exact Nat.mod_eq_of_lt h

/-- C2 at a concrete driver: mode 0, delay 1000, raw edge at 5000, counter 7. -/
theorem publish_trigger_immediate_witness :
    immediate_sample.camera_capture_mode = 0
    ∧ immediate_sample.publish_trigger.2
        = some { timestamp := 4000, seq := 7, feedback := true }
    ∧ immediate_sample.publish_trigger.1.last_trig_time = 4000
    ∧ immediate_sample.publish_trigger.1.capture_seq = 8 := by
  have h := publish_trigger_immediate immediate_sample rfl
  exact ⟨rfl, h.1, h.2.1, h.2.2.1⟩

/-! ## Mid-exposure, active high -/

/-- C3: in capture mode 1 without GPIO capture, from any driver state, a rising edge at `r`
followed by a falling edge at `f`, where the corrected window start
`s = r - strobe delay` satisfies `0 < s ≤ f`, publishes nothing on the rising edge and one
message on the falling edge, with timestamp `f - (f - s) / 2`; afterwards
`last_exposure_time = f - s` and `last_trig_time` is the published timestamp. -/
theorem mid_exposure_active_high_window (c : CameraCapture) (ch1 ov1 ch2 ov2 r f : Nat)
    (hmode : c.camera_capture_mode = 1) (hgpio : c.gpio_capture = false)
    (hs : 0 < sub64 r c.strobe_delay_us) (hsf : sub64 r c.strobe_delay_us ≤ f)
    (hf : f < 2 ^ 64) :
    (c.on_edge ⟨ch1, r, 1, ov1⟩).2 = none
    ∧ ((c.on_edge ⟨ch1, r, 1, ov1⟩).1.on_edge ⟨ch2, f, 0, ov2⟩).2.map camera_trigger_s.timestamp
        = some (f - (f - sub64 r c.strobe_delay_us) / 2)
    ∧ (c.run_edges [⟨ch1, r, 1, ov1⟩, ⟨ch2, f, 0, ov2⟩]).2.map camera_trigger_s.timestamp
        = [f - (f - sub64 r c.strobe_delay_us) / 2]
    ∧ (c.run_edges [⟨ch1, r, 1, ov1⟩, ⟨ch2, f, 0, ov2⟩]).1.last_exposure_time
        = f - sub64 r c.strobe_delay_us
    ∧ (c.run_edges [⟨ch1, r, 1, ov1⟩, ⟨ch2, f, 0, ov2⟩]).1.last_trig_time
        = f - (f - sub64 r c.strobe_delay_us) / 2 := by
  have e1 : sub64 f (sub64 r c.strobe_delay_us) = f - sub64 r c.strobe_delay_us :=
    sub64_of_le hsf hf
  have e2 : sub64 f ((f - sub64 r c.strobe_delay_us) / 2)
      = f - (f - sub64 r c.strobe_delay_us) / 2 :=
    sub64_of_le (by omega) hf
  have hpos : sub64 r c.strobe_delay_us ≠ 0 := by omega
  simp [CameraCapture.run_edges, CameraCapture.on_edge, CameraCapture.capture_callback,
    CameraCapture.publish_trigger, CameraCapture.resolve, hmode, hgpio, hs, e1, e2, hpos]

/-- C3 at the spec's example: rising at 1000, falling at 2000, no strobe delay, gives one
message stamped 1500 and an exposure time of 1000. -/
theorem mid_exposure_active_high_window_witness :
    ((fresh 1 0).on_edge ⟨5, 1000, 1, 0⟩).2 = none
    ∧ (((fresh 1 0).on_edge ⟨5, 1000, 1, 0⟩).1.on_edge ⟨5, 2000, 0, 0⟩).2.map
        camera_trigger_s.timestamp = some 1500
    ∧ ((fresh 1 0).run_edges [⟨5, 1000, 1, 0⟩, ⟨5, 2000, 0, 0⟩]).2.map
        camera_trigger_s.timestamp = [1500]
    ∧ ((fresh 1 0).run_edges [⟨5, 1000, 1, 0⟩, ⟨5, 2000, 0, 0⟩]).1.last_exposure_time = 1000
    ∧ ((fresh 1 0).run_edges [⟨5, 1000, 1, 0⟩, ⟨5, 2000, 0, 0⟩]).1.last_trig_time = 1500 :=
  mid_exposure_active_high_window (fresh 1 0) 5 0 5 0 1000 2000 rfl rfl
    (by decide) (by decide) (by norm_num)

/-- C4: in capture mode 1 without GPIO capture, a falling edge processed while
`last_trig_begin_time` is at its reset value 0 publishes nothing and leaves the sequence
counter, `last_trig_time`, `last_exposure_time` and `last_trig_begin_time` as they were. -/
theorem lone_falling_edge_is_dropped (c : CameraCapture) (ch t ov : Nat)
    (hmode : c.camera_capture_mode = 1) (hgpio : c.gpio_capture = false)
    (hpend : c.last_trig_begin_time = 0) :
    (c.on_edge ⟨ch, t, 0, ov⟩).2 = none
    ∧ (c.on_edge ⟨ch, t, 0, ov⟩).1.capture_seq = c.capture_seq
    ∧ (c.on_edge ⟨ch, t, 0, ov⟩).1.last_trig_time = c.last_trig_time
    ∧ (c.on_edge ⟨ch, t, 0, ov⟩).1.last_exposure_time = c.last_exposure_time
    ∧ (c.on_edge ⟨ch, t, 0, ov⟩).1.last_trig_begin_time = c.last_trig_begin_time := by
  simp [CameraCapture.on_edge, CameraCapture.capture_callback,
    CameraCapture.publish_trigger, CameraCapture.resolve, hmode, hgpio, hpend]

/-- C4 right after `reset_statistics`: a driver in mode 1 whose statistics were just reset
(sequence counter kept at 7) drops a falling edge at 2000. -/
theorem lone_falling_edge_is_dropped_witness :
    (mode1_sample.reset_statistics false).last_trig_begin_time = 0
    ∧ ((mode1_sample.reset_statistics false).on_edge ⟨5, 2000, 0, 9⟩).2 = none
    ∧ ((mode1_sample.reset_statistics false).on_edge ⟨5, 2000, 0, 9⟩).1.capture_seq = 7
    ∧ ((mode1_sample.reset_statistics false).on_edge ⟨5, 2000, 0, 9⟩).1.last_trig_time
        = 0 := by
  have h := lone_falling_edge_is_dropped (mode1_sample.reset_statistics false)
    5 2000 9 rfl rfl rfl
  exact ⟨rfl, h.1, h.2.1, h.2.2.1⟩

/-! ## Closing edges and the pending window -/

/-- C5 refuted on the code: in capture mode 1, a rising edge at 1000 followed by falling
edges at 2000 and 3000 publishes two messages, not one: the window start is still 1000
after the first falling edge, and the second falling edge publishes a message stamped
2000. -/
theorem second_closing_edge_publishes_again :
    ((fresh 1 0).run_edges [rising 1000, falling 2000, falling 3000]).2.length = 2
    ∧ ((fresh 1 0).run_edges [rising 1000, falling 2000, falling 3000]).2.map
        camera_trigger_s.timestamp = [1500, 2000]
    ∧ ((fresh 1 0).run_edges [rising 1000, falling 2000]).1.last_trig_begin_time = 1000
    ∧ ((((fresh 1 0).run_edges [rising 1000, falling 2000]).1.on_edge (falling 3000)).2
        ≠ none) := by
  decide

/-- C5 as the code has it: in either mid-exposure mode (capture mode other than 0, no GPIO
capture), a closing edge that publishes leaves `last_trig_begin_time` unchanged. An
opening edge at `r` whose corrected start `s = r - strobe delay` is not zero, followed by
two closing edges at `f1` and `f2` with no opening edge in between, publishes two
messages, one per closing edge, both measured from the same start `s`, which is still
pending afterwards. -/
theorem closing_edge_keeps_window (c : CameraCapture)
    (ch1 ov1 ch2 ov2 ch3 ov3 r f1 f2 : Nat)
    (hmode : c.camera_capture_mode ≠ 0) (hgpio : c.gpio_capture = false)
    (hs : 0 < sub64 r c.strobe_delay_us) :
    (c.run_edges [⟨ch1, r, opening_state c.camera_capture_mode, ov1⟩,
                  ⟨ch2, f1, closing_state c.camera_capture_mode, ov2⟩,
                  ⟨ch3, f2, closing_state c.camera_capture_mode, ov3⟩]).2.map
        camera_trigger_s.timestamp
      = [sub64 f1 (sub64 f1 (sub64 r c.strobe_delay_us) / 2),
         sub64 f2 (sub64 f2 (sub64 r c.strobe_delay_us) / 2)]
    ∧ (c.run_edges [⟨ch1, r, opening_state c.camera_capture_mode, ov1⟩,
                    ⟨ch2, f1, closing_state c.camera_capture_mode, ov2⟩]).2.map
        camera_trigger_s.timestamp
      = [sub64 f1 (sub64 f1 (sub64 r c.strobe_delay_us) / 2)]
    ∧ (c.run_edges [⟨ch1, r, opening_state c.camera_capture_mode, ov1⟩,
                    ⟨ch2, f1, closing_state c.camera_capture_mode, ov2⟩]).1.last_trig_begin_time
      = sub64 r c.strobe_delay_us
    ∧ (c.run_edges [⟨ch1, r, opening_state c.camera_capture_mode, ov1⟩,
                    ⟨ch2, f1, closing_state c.camera_capture_mode, ov2⟩,
                    ⟨ch3, f2, closing_state c.camera_capture_mode, ov3⟩]).1.last_trig_begin_time
      = sub64 r c.strobe_delay_us := by
  have hpos : sub64 r c.strobe_delay_us ≠ 0 := by omega
  by_cases h1 : c.camera_capture_mode = 1
  · simp [CameraCapture.run_edges, CameraCapture.on_edge, CameraCapture.capture_callback,
      CameraCapture.publish_trigger, CameraCapture.resolve, opening_state, closing_state,
      h1, hgpio, hs, hpos]
  · simp [CameraCapture.run_edges, CameraCapture.on_edge, CameraCapture.capture_callback,
      CameraCapture.publish_trigger, CameraCapture.resolve, opening_state, closing_state,
      h1, hmode, hgpio, hs, hpos]

/-- C5 as the code has it, in capture mode 2 with a strobe delay of 100: falling at 1100,
rising at 2000, rising at 3000. -/
theorem closing_edge_keeps_window_witness :
    ((fresh 2 100).run_edges [⟨5, 1100, 0, 0⟩, ⟨5, 2000, 1, 0⟩, ⟨5, 3000, 1, 0⟩]).2.map
        camera_trigger_s.timestamp = [1500, 2000]
    ∧ ((fresh 2 100).run_edges [⟨5, 1100, 0, 0⟩, ⟨5, 2000, 1, 0⟩]).2.map
        camera_trigger_s.timestamp = [1500]
    ∧ ((fresh 2 100).run_edges [⟨5, 1100, 0, 0⟩, ⟨5, 2000, 1, 0⟩]).1.last_trig_begin_time
        = 1000
    ∧ ((fresh 2 100).run_edges
        [⟨5, 1100, 0, 0⟩, ⟨5, 2000, 1, 0⟩, ⟨5, 3000, 1, 0⟩]).1.last_trig_begin_time
        = 1000 :=
  closing_edge_keeps_window (fresh 2 100) 5 0 5 0 5 0 1100 2000 3000
    (by decide) rfl (by decide)

/-! ## Polarity mirror -/

/-- C6: from the same driver state, processing a raw edge in capture mode 2 (active low) and
processing the polarity-swapped edge in capture mode 1 (active high) agree on whether a
message is published, on its timestamp, and on the resulting `last_trig_time`,
`last_exposure_time` and `last_trig_begin_time`. -/
theorem active_low_mirrors_active_high (c : CameraCapture) (e : trig_s) :
    (({ c with camera_capture_mode := 2 }).on_edge e).2.isSome
      = (({ c with camera_capture_mode := 1 }).on_edge (flip_edge e)).2.isSome
    ∧ (({ c with camera_capture_mode := 2 }).on_edge e).2.map camera_trigger_s.timestamp
      = (({ c with camera_capture_mode := 1 }).on_edge (flip_edge e)).2.map
          camera_trigger_s.timestamp
    ∧ (({ c with camera_capture_mode := 2 }).on_edge e).1.last_trig_time
      = (({ c with camera_capture_mode := 1 }).on_edge (flip_edge e)).1.last_trig_time
    ∧ (({ c with camera_capture_mode := 2 }).on_edge e).1.last_exposure_time
      = (({ c with camera_capture_mode := 1 }).on_edge (flip_edge e)).1.last_exposure_time
    ∧ (({ c with camera_capture_mode := 2 }).on_edge e).1.last_trig_begin_time
      = (({ c with camera_capture_mode := 1 }).on_edge (flip_edge e)).1.last_trig_begin_time := by
  by_cases hg : c.gpio_capture = true
  · simp [CameraCapture.on_edge, CameraCapture.capture_callback,
      CameraCapture.publish_trigger, CameraCapture.resolve, flip_edge, hg]
  · by_cases h0 : e.edge_state = 0
    · simp [CameraCapture.on_edge, CameraCapture.capture_callback,
        CameraCapture.publish_trigger, CameraCapture.resolve, flip_edge, flip_state, hg, h0]
    · by_cases h1 : e.edge_state = 1
      · by_cases hp : c.last_trig_begin_time = 0
        · simp [CameraCapture.on_edge, CameraCapture.capture_callback,
            CameraCapture.publish_trigger, CameraCapture.resolve, flip_edge, flip_state,
            hg, h1, hp]
        · have hp2 : 0 < c.last_trig_begin_time := Nat.pos_of_ne_zero hp
          simp [CameraCapture.on_edge, CameraCapture.capture_callback,
            CameraCapture.publish_trigger, CameraCapture.resolve, flip_edge, flip_state,
            hg, h1, hp, hp2]
      · simp [CameraCapture.on_edge, CameraCapture.capture_callback,
          CameraCapture.publish_trigger, CameraCapture.resolve, flip_edge, flip_state,
          hg, h0, h1]

/-! ## Overflow count -/

/-- C7: whatever the capture mode, the driver state and the raw edge, after
`publish_trigger` the recorded overflow count is the overflow value of the raw edge in the
holder, published or not; a lone falling edge in capture mode 1 publishes nothing and
still records its overflow value. -/
theorem overflow_always_recorded (c : CameraCapture) (e : trig_s) :
    c.publish_trigger.1.capture_overflows = c.trigger.overflow
    ∧ (c.on_edge e).1.capture_overflows = e.overflow
    ∧ ((fresh 1 0).on_edge ⟨5, 2000, 0, 9⟩).2 = none
    ∧ ((fresh 1 0).on_edge ⟨5, 2000, 0, 9⟩).1.capture_overflows = 9 := by
  have key : ∀ d : CameraCapture, d.resolve.dev.trigger = d.trigger := by
    intro d
    unfold CameraCapture.resolve
    simp only []
    split_ifs <;> rfl
  refine ⟨?_, ?_, by decide, by decide⟩
  · unfold CameraCapture.publish_trigger
    simp only []
    split_ifs <;> simp [key]
  · unfold CameraCapture.on_edge CameraCapture.publish_trigger
    simp only []
    split_ifs <;> simp [key, CameraCapture.capture_callback]

/-! ## Statistics reset -/

/-- C8: `reset_statistics(reset_seq)` zeroes `last_trig_begin_time`, `last_exposure_time`,
`last_trig_time` and `capture_overflows`; the sequence counter becomes 0 when `reset_seq`
is true and is kept otherwise; the enabled flag, the GPIO flag, the capture parameters and
the raw edge holder are untouched. -/
theorem reset_statistics_effect (c : CameraCapture) (reset_seq : Bool) :
    (c.reset_statistics reset_seq).last_trig_begin_time = 0
    ∧ (c.reset_statistics reset_seq).last_exposure_time = 0
    ∧ (c.reset_statistics reset_seq).last_trig_time = 0
    ∧ (c.reset_statistics reset_seq).capture_overflows = 0
    ∧ (c.reset_statistics true).capture_seq = 0
    ∧ (c.reset_statistics false).capture_seq = c.capture_seq
    ∧ (c.reset_statistics reset_seq).capture_enabled = c.capture_enabled
    ∧ (c.reset_statistics reset_seq).gpio_capture = c.gpio_capture
    ∧ (c.reset_statistics reset_seq).camera_capture_mode = c.camera_capture_mode
    ∧ (c.reset_statistics reset_seq).camera_capture_edge = c.camera_capture_edge
    ∧ (c.reset_statistics reset_seq).strobe_delay_us = c.strobe_delay_us
    ∧ (c.reset_statistics reset_seq).trigger = c.trigger := by
  cases reset_seq <;> simp [CameraCapture.reset_statistics]

/-! ## Capture control -/

/-- C9 refuted on the code: with capture already enabled, a call `set_capture_control(true)`
that fails because the device cannot be opened, or because the switch to a capture mode is
refused, returns with `capture_enabled` still true. -/
theorem failed_enable_can_stay_enabled :
    open_fails ⟨-1, 0, 0, 0⟩
    ∧ (enabled_sample.set_capture_control false ⟨-1, 0, 0, 0⟩ true).1.capture_enabled = true
    ∧ mode_fails ⟨3, -1, -1, 0⟩ true
    ∧ (enabled_sample.set_capture_control false ⟨3, -1, -1, 0⟩ true).1.capture_enabled
        = true := by
  decide

/-- C9 as the code has it (default build, `CONFIG_ARCH_BOARD_AV_X_V1` not defined): when
`set_capture_control(true)` fails, then `capture_enabled` is false if the callback could not
be installed; the whole driver state is left as it was if the device could not be opened or
the capture mode could not be set; so in every case of failure a driver that was disabled
before the call is disabled after it. -/
theorem failed_enable_flag (c : CameraCapture) (calls : fmu_calls)
    (hfail : open_fails calls ∨ mode_fails calls true ∨ callback_fails calls true) :
    (callback_fails calls true →
        (c.set_capture_control false calls true).1.capture_enabled = false)
    ∧ (open_fails calls ∨ mode_fails calls true →
        (c.set_capture_control false calls true).1 = c)
    ∧ (c.capture_enabled = false →
        (c.set_capture_control false calls true).1.capture_enabled = false) := by
  have hcb : callback_fails calls true →
      (c.set_capture_control false calls true).1.capture_enabled = false := by
    rintro ⟨h1, h2, h3⟩
    have h1n : ¬ calls.open_fd < 0 := by omega
    by_cases hg : calls.get_count = 0
    · simp [CameraCapture.set_capture_control, CameraCapture.install_callback, h1n, hg, h3]
    · have := h2 rfl hg
      simp [CameraCapture.set_capture_control, CameraCapture.install_callback, h1n, hg, h3,
        this]
  have hom : open_fails calls ∨ mode_fails calls true →
      (c.set_capture_control false calls true).1 = c := by
    rintro (h | ⟨h1, _, h3, h4⟩)
    · have h0 : calls.open_fd < 0 := h
      simp [CameraCapture.set_capture_control, h0]
    · have h1n : ¬ calls.open_fd < 0 := by omega
      simp [CameraCapture.set_capture_control, h1n, h3, h4]
  refine ⟨hcb, hom, ?_⟩
  intro hdis
  rcases hfail with h | h | h
  · rw [hom (Or.inl h)]
    exact hdis
  · rw [hom (Or.inr h)]
    exact hdis
  · exact hcb h

/-- C9 as the code has it, at a driver that was enabled when the callback request is
refused, and at a freshly constructed (disabled) driver when the device cannot be opened. -/
theorem failed_enable_flag_witness :
    callback_fails ⟨3, 0, 0, -1⟩ true
    ∧ (enabled_sample.set_capture_control false ⟨3, 0, 0, -1⟩ true).1.capture_enabled = false
    ∧ open_fails ⟨-1, 0, 0, 0⟩
    ∧ ((fresh 1 0).set_capture_control false ⟨-1, 0, 0, 0⟩ true).1.capture_enabled = false :=
  ⟨by decide,
   (failed_enable_flag enabled_sample ⟨3, 0, 0, -1⟩ (Or.inr (Or.inr (by decide)))).1
     (by decide),
   by decide,
   (failed_enable_flag (fresh 1 0) ⟨-1, 0, 0, 0⟩ (Or.inl (by decide))).2.2 rfl⟩

/-- C10 (default build): when `set_capture_control(enabled)` succeeds, the driver ends with
`capture_enabled == enabled`, with `last_trig_begin_time`, `last_exposure_time`,
`last_trig_time` and `capture_overflows` all zero and with the sequence counter unchanged,
and in a mid-exposure mode the next edge, whatever its polarity (a closing edge in
particular), publishes nothing. The same holds at the end of a disable (whatever its
outcome), a change of the capture mode to `m`, and a successful enable: no window start
from before survives, and in a mid-exposure mode the first edge publishes nothing. -/
theorem successful_control_resets (c : CameraCapture) (calls calls1 calls2 : fmu_calls)
    (enabled : Bool) (m : Int) (e : trig_s)
    (hok : control_succeeds calls enabled) (hok2 : control_succeeds calls2 true) :
    (c.set_capture_control false calls enabled).1.capture_enabled = enabled
    ∧ (c.set_capture_control false calls enabled).1.last_trig_begin_time = 0
    ∧ (c.set_capture_control false calls enabled).1.last_exposure_time = 0
    ∧ (c.set_capture_control false calls enabled).1.last_trig_time = 0
    ∧ (c.set_capture_control false calls enabled).1.capture_overflows = 0
    ∧ (c.set_capture_control false calls enabled).1.capture_seq = c.capture_seq
    ∧ (c.camera_capture_mode ≠ 0 →
        ((c.set_capture_control false calls enabled).1.on_edge e).2 = none)
    ∧ (({ (c.set_capture_control false calls1 false).1 with
            camera_capture_mode := m }).set_capture_control false calls2 true).1.capture_enabled
        = true
    ∧ (({ (c.set_capture_control false calls1 false).1 with
            camera_capture_mode := m }).set_capture_control false calls2 true).1.last_trig_begin_time
        = 0
    ∧ (m ≠ 0 →
        ((({ (c.set_capture_control false calls1 false).1 with
            camera_capture_mode := m }).set_capture_control false calls2 true).1.on_edge e).2
          = none) := by
  have step : ∀ (d : CameraCapture) (k : fmu_calls) (b : Bool), control_succeeds k b →
      (d.set_capture_control false k b).1
        = ({ d with capture_enabled := b, gpio_capture := false }).reset_statistics false := by
    intro d k b hk
    obtain ⟨h1, h2, h3⟩ := hk
    have h1n : ¬ k.open_fd < 0 := by omega
    cases b
    · simp [CameraCapture.set_capture_control, CameraCapture.install_callback, h1n, h3]
    · by_cases hg : k.get_count = 0
      · simp [CameraCapture.set_capture_control, CameraCapture.install_callback, h1n, hg, h3]
      · have := h2 rfl hg
        simp [CameraCapture.set_capture_control, CameraCapture.install_callback, h1n, hg, h3,
          this]
  have quiet : ∀ (d : CameraCapture) (b : Bool), d.camera_capture_mode ≠ 0 →
      ((({ d with capture_enabled := b, gpio_capture := false }).reset_statistics
          false).on_edge e).2 = none := by
    intro d b hm
    by_cases h1 : d.camera_capture_mode = 1
    · by_cases he : e.edge_state = 1
      · simp [CameraCapture.on_edge, CameraCapture.capture_callback,
          CameraCapture.publish_trigger, CameraCapture.resolve,
          CameraCapture.reset_statistics, h1, he]
      · simp [CameraCapture.on_edge, CameraCapture.capture_callback,
          CameraCapture.publish_trigger, CameraCapture.resolve,
          CameraCapture.reset_statistics, h1, he]
    · by_cases he : e.edge_state = 0
      · simp [CameraCapture.on_edge, CameraCapture.capture_callback,
          CameraCapture.publish_trigger, CameraCapture.resolve,
          CameraCapture.reset_statistics, h1, hm, he]
      · simp [CameraCapture.on_edge, CameraCapture.capture_callback,
          CameraCapture.publish_trigger, CameraCapture.resolve,
          CameraCapture.reset_statistics, h1, hm, he]
  rw [step c calls enabled hok, step _ calls2 true hok2]
  refine ⟨?_, ?_, ?_, ?_, ?_, ?_, ?_, ?_, ?_, ?_⟩
  · simp [CameraCapture.reset_statistics]
  · simp [CameraCapture.reset_statistics]
  · simp [CameraCapture.reset_statistics]
  · simp [CameraCapture.reset_statistics]
  · simp [CameraCapture.reset_statistics]
  · simp [CameraCapture.reset_statistics]
  · exact quiet c enabled
  · simp [CameraCapture.reset_statistics]
  · simp [CameraCapture.reset_statistics]
  · intro hm
    exact quiet _ true hm

/-- C10 at a driver in capture mode 1 with a window start pending at 400 and sequence
counter 7: a successful enable clears the pending start and keeps the counter, and a
falling edge arriving first publishes nothing; likewise after a disable, a switch to
capture mode 2 and a successful enable, for a rising edge arriving first. -/
theorem successful_control_resets_witness :
    control_succeeds ⟨3, 0, 0, 0⟩ true
    ∧ mode1_sample.last_trig_begin_time = 400
    ∧ (mode1_sample.set_capture_control false ⟨3, 0, 0, 0⟩ true).1.capture_enabled = true
    ∧ (mode1_sample.set_capture_control false ⟨3, 0, 0, 0⟩ true).1.last_trig_begin_time = 0
    ∧ (mode1_sample.set_capture_control false ⟨3, 0, 0, 0⟩ true).1.capture_seq = 7
    ∧ ((mode1_sample.set_capture_control false ⟨3, 0, 0, 0⟩ true).1.on_edge
        (falling 2000)).2 = none := by
  have h := successful_control_resets mode1_sample ⟨3, 0, 0, 0⟩ ⟨3, 0, 0, 0⟩ ⟨3, 0, 0, 0⟩
    true 2 (falling 2000) (by decide) (by decide)
  exact ⟨by decide, rfl, h.1, h.2.1, h.2.2.2.2.2.1, h.2.2.2.2.2.2.1 (by decide)⟩

/-- C11: calling `set_capture_control(false)` on a driver whose `capture_enabled` flag is
already false leaves the flag false and the sequence counter unchanged, in either build and
whatever `open` and the `ioctl` requests return. -/
theorem disable_when_disabled (c : CameraCapture) (av_x_v1 : Bool) (calls : fmu_calls)
    (hdis : c.capture_enabled = false) :
    (c.set_capture_control av_x_v1 calls false).1.capture_enabled = false
    ∧ (c.set_capture_control av_x_v1 calls false).1.capture_seq = c.capture_seq := by
  cases av_x_v1
  · by_cases ho : calls.open_fd < 0
    · simp [CameraCapture.set_capture_control, ho, hdis]
    · by_cases hc : calls.set_callback = 0
      · simp [CameraCapture.set_capture_control, CameraCapture.install_callback,
          CameraCapture.reset_statistics, ho, hc]
      · simp [CameraCapture.set_capture_control, CameraCapture.install_callback, ho, hc]
  · simp [CameraCapture.set_capture_control, CameraCapture.reset_statistics]

/-- C11 at a freshly constructed (disabled) driver in capture mode 1, when the device
cannot be opened and when the callback request is refused. -/
theorem disable_when_disabled_witness :
    (fresh 1 0).capture_enabled = false
    ∧ ((fresh 1 0).set_capture_control false ⟨-1, 0, 0, 0⟩ false).1.capture_enabled = false
    ∧ ((fresh 1 0).set_capture_control false ⟨-1, 0, 0, 0⟩ false).1.capture_seq = 0
    ∧ ((fresh 1 0).set_capture_control false ⟨3, 0, 0, -1⟩ false).1.capture_enabled = false :=
  ⟨rfl, (disable_when_disabled (fresh 1 0) false ⟨-1, 0, 0, 0⟩ rfl).1,
   (disable_when_disabled (fresh 1 0) false ⟨-1, 0, 0, 0⟩ rfl).2,
   (disable_when_disabled (fresh 1 0) false ⟨3, 0, 0, -1⟩ rfl).1⟩

/-! ## Capture callback -/

/-- C12: `capture_callback(channel, timestamp, edge_state, overflow)` overwrites the raw edge
holder with exactly those four values and changes nothing else in the driver (window start,
last trigger time, last exposure time, overflow count, sequence counter, flags and
parameters); it returns no message. Hence two `capture_callback` calls followed by one
`publish_trigger` give the same driver state and the same publication as the second call
alone followed by `publish_trigger`. -/
theorem capture_callback_overwrites_holder (c : CameraCapture)
    (ch t st ov ch2 t2 st2 ov2 : Nat) :
    (c.capture_callback ch t st ov).trigger
      = { chan_index := ch, edge_time := t, edge_state := st, overflow := ov }
    ∧ (c.capture_callback ch t st ov).last_trig_begin_time = c.last_trig_begin_time
    ∧ (c.capture_callback ch t st ov).last_trig_time = c.last_trig_time
    ∧ (c.capture_callback ch t st ov).last_exposure_time = c.last_exposure_time
    ∧ (c.capture_callback ch t st ov).capture_overflows = c.capture_overflows
    ∧ (c.capture_callback ch t st ov).capture_seq = c.capture_seq
    ∧ (c.capture_callback ch t st ov) = { c with trigger := ⟨ch, t, st, ov⟩ }
    ∧ ((c.capture_callback ch t st ov).capture_callback ch2 t2 st2 ov2).publish_trigger
      = (c.capture_callback ch2 t2 st2 ov2).publish_trigger := by
  simp [CameraCapture.capture_callback]

/-! ## Opening edges -/

/-- C13: in a mid-exposure mode (capture mode other than 0, no GPIO capture), an opening
edge (rising in mode 1, falling otherwise) at raw time `t` sets `last_trig_begin_time` to
`t` minus the strobe delay in microseconds (unsigned 64-bit subtraction), publishes nothing
and leaves the sequence counter, `last_trig_time` and `last_exposure_time` as they were,
from every driver state. -/
theorem opening_edge_sets_window (c : CameraCapture) (ch t ov : Nat)
    (hmode : c.camera_capture_mode ≠ 0) (hgpio : c.gpio_capture = false) :
    (c.on_edge ⟨ch, t, opening_state c.camera_capture_mode, ov⟩).1.last_trig_begin_time
      = sub64 t c.strobe_delay_us
    ∧ (c.on_edge ⟨ch, t, opening_state c.camera_capture_mode, ov⟩).2 = none
    ∧ (c.on_edge ⟨ch, t, opening_state c.camera_capture_mode, ov⟩).1.capture_seq
      = c.capture_seq
    ∧ (c.on_edge ⟨ch, t, opening_state c.camera_capture_mode, ov⟩).1.last_trig_time
      = c.last_trig_time
    ∧ (c.on_edge ⟨ch, t, opening_state c.camera_capture_mode, ov⟩).1.last_exposure_time
      = c.last_exposure_time
    ∧ (c.strobe_delay_us ≤ t → t < 2 ^ 64 → sub64 t c.strobe_delay_us = t - c.strobe_delay_us) := by
  refine ⟨?_, ?_, ?_, ?_, ?_, fun h1 h2 => sub64_of_le h1 h2⟩ <;>
  · by_cases h1 : c.camera_capture_mode = 1
    · simp [CameraCapture.on_edge, CameraCapture.capture_callback,
        CameraCapture.publish_trigger, CameraCapture.resolve, opening_state, h1, hgpio]
    · simp [CameraCapture.on_edge, CameraCapture.capture_callback,
        CameraCapture.publish_trigger, CameraCapture.resolve, opening_state, h1, hmode, hgpio]

/-- C13 at a driver in capture mode 1 with sequence counter 7 and earlier statistics: a
rising edge at 5000 with no strobe delay opens the window at 5000 and publishes nothing. -/
theorem opening_edge_sets_window_witness :
    (mode1_sample.on_edge ⟨5, 5000, 1, 0⟩).1.last_trig_begin_time = 5000
    ∧ (mode1_sample.on_edge ⟨5, 5000, 1, 0⟩).2 = none
    ∧ (mode1_sample.on_edge ⟨5, 5000, 1, 0⟩).1.capture_seq = 7
    ∧ (mode1_sample.on_edge ⟨5, 5000, 1, 0⟩).1.last_trig_time = 500
    ∧ (mode1_sample.on_edge ⟨5, 5000, 1, 0⟩).1.last_exposure_time = 30 := by
  have h := opening_edge_sets_window mode1_sample 5 5000 0 (by decide) rfl
  exact ⟨h.1, h.2.1, h.2.2.1, h.2.2.2.1, h.2.2.2.2.1⟩

/-! ## GPIO capture -/

/-- C14: when the GPIO capture flag is set, `publish_trigger` does what it does in capture
mode 0, whatever the configured mode: the published message is the same, and the resulting
driver state is the one produced with the mode set to 0, the mode parameter itself apart.
That is, one message stamped with the raw edge time minus the strobe delay and numbered
with the counter before the call. -/
theorem gpio_capture_is_immediate (c : CameraCapture) (hgpio : c.gpio_capture = true) :
    c.publish_trigger.2 = ({ c with camera_capture_mode := 0 }).publish_trigger.2
    ∧ c.publish_trigger.1
      = { ({ c with camera_capture_mode := 0 }).publish_trigger.1 with
            camera_capture_mode := c.camera_capture_mode }
    ∧ c.publish_trigger.2
        = some { timestamp := sub64 c.trigger.edge_time c.strobe_delay_us,
                 seq := c.capture_seq, feedback := true } := by
  simp [CameraCapture.publish_trigger, CameraCapture.resolve, hgpio]

/-- C14 at a driver with GPIO capture configured for capture mode 1, with a pending window
start and a falling edge at 5000 in the holder: the message is the mode 0 one. -/
theorem gpio_capture_is_immediate_witness :
    gpio_sample.gpio_capture = true
    ∧ gpio_sample.camera_capture_mode = 1
    ∧ gpio_sample.publish_trigger.2
        = ({ gpio_sample with camera_capture_mode := 0 }).publish_trigger.2
    ∧ gpio_sample.publish_trigger.2 = some { timestamp := 4000, seq := 7, feedback := true } := by
  have h := gpio_capture_is_immediate gpio_sample rfl
  exact ⟨rfl, rfl, h.1, h.2.2⟩

/-! ## Capture configuration -/

/-- C15 (default build): whenever `set_capture_control(enabled)` gets as far as programming
the capture peripheral, the configuration it hands over selects both edges when the capture
mode is not 0, and in capture mode 0 the rising edge when the edge parameter is non-zero
and the falling edge when it is zero; the callback in it is the capture entry point when
enabling and null when disabling. -/
theorem capture_conf_programmed (c : CameraCapture) (calls : fmu_calls) (enabled : Bool)
    (hreach : reaches_callback calls enabled) :
    (c.set_capture_control false calls enabled).2.map input_capture_config_t.edge
      = some (if c.camera_capture_mode = 0 then
                (if c.camera_capture_edge ≠ 0 then input_capture_edge.Rising
                 else input_capture_edge.Falling)
              else input_capture_edge.Both)
    ∧ (c.set_capture_control false calls enabled).2.map input_capture_config_t.callback
      = some (if enabled = true then capture_callback_ptr.capture_trampoline
              else capture_callback_ptr.nullptr)
    ∧ (c.camera_capture_mode ≠ 0 →
        (c.set_capture_control false calls enabled).2.map input_capture_config_t.edge
          = some input_capture_edge.Both) := by
  obtain ⟨h1, h2⟩ := hreach
  have h1n : ¬ calls.open_fd < 0 := by omega
  have key : (c.set_capture_control false calls enabled).2 = some (c.capture_conf enabled) := by
    cases enabled
    · by_cases hc : calls.set_callback = 0 <;>
        simp [CameraCapture.set_capture_control, CameraCapture.install_callback, h1n, hc]
    · by_cases hg : calls.get_count = 0
      · by_cases hc : calls.set_callback = 0 <;>
          simp [CameraCapture.set_capture_control, CameraCapture.install_callback, h1n, hg, hc]
      · have hm := h2 rfl hg
        by_cases hc : calls.set_callback = 0 <;>
          simp [CameraCapture.set_capture_control, CameraCapture.install_callback, h1n, hg,
            hm, hc]
  rw [key]
  refine ⟨?_, ?_, ?_⟩
  · cases enabled <;> simp [CameraCapture.capture_conf]
  · cases enabled <;> simp [CameraCapture.capture_conf]
  · intro hm
    cases enabled <;> simp [CameraCapture.capture_conf, hm]

/-- C15 at concrete drivers: enabling in capture mode 1 programs both edges with the capture
entry point as callback; disabling in capture mode 0 with edge parameter 0 programs the
falling edge with a null callback. -/
theorem capture_conf_programmed_witness :
    reaches_callback ⟨3, 0, 0, 0⟩ true
    ∧ (mode1_sample.set_capture_control false ⟨3, 0, 0, 0⟩ true).2.map
        input_capture_config_t.edge = some input_capture_edge.Both
    ∧ (mode1_sample.set_capture_control false ⟨3, 0, 0, 0⟩ true).2.map
        input_capture_config_t.callback = some capture_callback_ptr.capture_trampoline
    ∧ (enabled_sample.set_capture_control false ⟨3, 0, 0, 0⟩ false).2.map
        input_capture_config_t.edge = some input_capture_edge.Falling
    ∧ (enabled_sample.set_capture_control false ⟨3, 0, 0, 0⟩ false).2.map
        input_capture_config_t.callback = some capture_callback_ptr.nullptr :=
  ⟨by decide,
   (capture_conf_programmed mode1_sample ⟨3, 0, 0, 0⟩ true (by decide)).1,
   (capture_conf_programmed mode1_sample ⟨3, 0, 0, 0⟩ true (by decide)).2.1,
   (capture_conf_programmed enabled_sample ⟨3, 0, 0, 0⟩ false (by decide)).1,
   (capture_conf_programmed enabled_sample ⟨3, 0, 0, 0⟩ false (by decide)).2.1⟩

/-! ## Midpoint arithmetic -/

/-- C16: in a mid-exposure mode (capture mode other than 0, no GPIO capture), a closing edge
at raw time `f < 2^64` processed with a pending window start `s`, `0 < s ≤ f`, publishes
the timestamp `t = f - (f - s) / 2` computed without unsigned wrap-around (the 64-bit
result is the exact one); `t` lies in the window, `s ≤ t ≤ f`, and is the midpoint up to
rounding: `f - t ≤ t - s ≤ (f - t) + 1`. -/
theorem midpoint_in_window (c : CameraCapture) (ch f ov : Nat)
    (hmode : c.camera_capture_mode ≠ 0) (hgpio : c.gpio_capture = false)
    (hs : 0 < c.last_trig_begin_time) (hsf : c.last_trig_begin_time ≤ f) (hf : f < 2 ^ 64) :
    (c.on_edge ⟨ch, f, closing_state c.camera_capture_mode, ov⟩).2.map
        camera_trigger_s.timestamp
      = some (f - (f - c.last_trig_begin_time) / 2)
    ∧ (c.on_edge ⟨ch, f, closing_state c.camera_capture_mode, ov⟩).1.last_trig_time
      = f - (f - c.last_trig_begin_time) / 2
    ∧ c.last_trig_begin_time ≤ f - (f - c.last_trig_begin_time) / 2
    ∧ f - (f - c.last_trig_begin_time) / 2 ≤ f
    ∧ f - (f - (f - c.last_trig_begin_time) / 2)
        ≤ (f - (f - c.last_trig_begin_time) / 2) - c.last_trig_begin_time
    ∧ (f - (f - c.last_trig_begin_time) / 2) - c.last_trig_begin_time
        ≤ (f - (f - (f - c.last_trig_begin_time) / 2)) + 1 := by
  have e1 : sub64 f c.last_trig_begin_time = f - c.last_trig_begin_time :=
    sub64_of_le hsf hf
  have e2 : sub64 f ((f - c.last_trig_begin_time) / 2)
      = f - (f - c.last_trig_begin_time) / 2 :=
    sub64_of_le (by omega) hf
  have hpos : c.last_trig_begin_time ≠ 0 := by omega
  refine ⟨?_, ?_, by omega, by omega, by omega, by omega⟩
  · by_cases h1 : c.camera_capture_mode = 1
    · simp [CameraCapture.on_edge, CameraCapture.capture_callback,
        CameraCapture.publish_trigger, CameraCapture.resolve, closing_state,
        h1, hgpio, hs, hpos, e1, e2]
    · simp [CameraCapture.on_edge, CameraCapture.capture_callback,
        CameraCapture.publish_trigger, CameraCapture.resolve, closing_state,
        h1, hmode, hgpio, hs, hpos, e1, e2]
  · by_cases h1 : c.camera_capture_mode = 1
    · simp [CameraCapture.on_edge, CameraCapture.capture_callback,
        CameraCapture.publish_trigger, CameraCapture.resolve, closing_state,
        h1, hgpio, hs, hpos, e1, e2]
    · simp [CameraCapture.on_edge, CameraCapture.capture_callback,
        CameraCapture.publish_trigger, CameraCapture.resolve, closing_state,
        h1, hmode, hgpio, hs, hpos, e1, e2]

/-- C16 at a driver in capture mode 1 with the window start pending at 400: a falling edge
at 1001 publishes the timestamp 701, with `400 ≤ 701 ≤ 1001` and `300 ≤ 301 ≤ 301`. -/
theorem midpoint_in_window_witness :
    mode1_sample.last_trig_begin_time = 400
    ∧ (mode1_sample.on_edge ⟨5, 1001, 0, 0⟩).2.map camera_trigger_s.timestamp = some 701
    ∧ (mode1_sample.on_edge ⟨5, 1001, 0, 0⟩).1.last_trig_time = 701 := by
  have h := midpoint_in_window mode1_sample 5 1001 0 (by decide) rfl (by decide) (by decide)
    (by norm_num)
  exact ⟨rfl, h.1, h.2.1⟩

/-! ## Zero as the empty window -/

/-- C17: in a mid-exposure mode (capture mode other than 0, no GPIO capture), an opening edge
whose raw timestamp equals the strobe delay in microseconds leaves a window start of 0, and
the closing edge that follows publishes nothing and leaves the sequence counter,
`last_trig_time` and `last_exposure_time` as they were before the two edges, as if no
window had been opened. -/
theorem zero_start_is_no_window (c : CameraCapture) (ch1 ov1 ch2 f ov2 : Nat)
    (hmode : c.camera_capture_mode ≠ 0) (hgpio : c.gpio_capture = false) :
    (c.on_edge ⟨ch1, c.strobe_delay_us, opening_state c.camera_capture_mode, ov1⟩).1.last_trig_begin_time
      = 0
    ∧ ((c.on_edge ⟨ch1, c.strobe_delay_us, opening_state c.camera_capture_mode, ov1⟩).1.on_edge
        ⟨ch2, f, closing_state c.camera_capture_mode, ov2⟩).2 = none
    ∧ (c.run_edges [⟨ch1, c.strobe_delay_us, opening_state c.camera_capture_mode, ov1⟩,
                    ⟨ch2, f, closing_state c.camera_capture_mode, ov2⟩]).2 = []
    ∧ (c.run_edges [⟨ch1, c.strobe_delay_us, opening_state c.camera_capture_mode, ov1⟩,
                    ⟨ch2, f, closing_state c.camera_capture_mode, ov2⟩]).1.capture_seq
      = c.capture_seq
    ∧ (c.run_edges [⟨ch1, c.strobe_delay_us, opening_state c.camera_capture_mode, ov1⟩,
                    ⟨ch2, f, closing_state c.camera_capture_mode, ov2⟩]).1.last_trig_time
      = c.last_trig_time
    ∧ (c.run_edges [⟨ch1, c.strobe_delay_us, opening_state c.camera_capture_mode, ov1⟩,
                    ⟨ch2, f, closing_state c.camera_capture_mode, ov2⟩]).1.last_exposure_time
      = c.last_exposure_time := by
  have hz : sub64 c.strobe_delay_us c.strobe_delay_us = 0 := sub64_self _
  by_cases h1 : c.camera_capture_mode = 1
  · simp [CameraCapture.run_edges, CameraCapture.on_edge, CameraCapture.capture_callback,
      CameraCapture.publish_trigger, CameraCapture.resolve, opening_state, closing_state,
      h1, hgpio, hz]
  · simp [CameraCapture.run_edges, CameraCapture.on_edge, CameraCapture.capture_callback,
      CameraCapture.publish_trigger, CameraCapture.resolve, opening_state, closing_state,
      h1, hmode, hgpio, hz]

/-- C17 in capture mode 2 with a strobe delay of 100: a falling edge at 100 followed by a
rising edge at 2000 publishes nothing and leaves the counter at 0. -/
theorem zero_start_is_no_window_witness :
    ((fresh 2 100).on_edge ⟨5, 100, 0, 0⟩).1.last_trig_begin_time = 0
    ∧ (((fresh 2 100).on_edge ⟨5, 100, 0, 0⟩).1.on_edge ⟨5, 2000, 1, 0⟩).2 = none
    ∧ ((fresh 2 100).run_edges [⟨5, 100, 0, 0⟩, ⟨5, 2000, 1, 0⟩]).2 = []
    ∧ ((fresh 2 100).run_edges [⟨5, 100, 0, 0⟩, ⟨5, 2000, 1, 0⟩]).1.capture_seq = 0 := by
  have h := zero_start_is_no_window (fresh 2 100) 5 0 5 2000 0 (by decide) rfl
  exact ⟨h.1, h.2.1, h.2.2.1, h.2.2.2.1⟩

end camera_capture
